import Mathlib

/-!
Shallow embedding of `pkg/client/client.go` (custom controller-runtime
client with cache-backed reads, direct-reader fallback, and conflict
retry), together with theorems checking the specification's claims.
-/

namespace SpireClient

/-- Error model for the Kubernetes API error taxonomy used by the code:
`NotFound`, `AlreadyExists`, `Conflict`, anything else, and the wrapping
applied by `fmt.Errorf("...: %w", err)` which preserves the inner error
for `errors.As`-style classification. -/
inductive KErr where
  | notFound (key : String)
  | alreadyExists (key : String)
  | conflict (key : String)
  | other (msg : String)
  | wrapped (ctx : String) (inner : KErr)
deriving DecidableEq, Repr

/-- `kerrors.IsNotFound`: classifies after unwrapping the `%w` chain. -/
def KErr.isNotFound : KErr → Bool
  | .notFound _ => true
  | .wrapped _ e => e.isNotFound
  | _ => false

/-- `kerrors.IsAlreadyExists`: classifies after unwrapping the `%w` chain. -/
def KErr.isAlreadyExists : KErr → Bool
  | .alreadyExists _ => true
  | .wrapped _ e => e.isAlreadyExists
  | _ => false

/-- `kerrors.IsConflict`: classifies after unwrapping the `%w` chain. -/
def KErr.isConflict : KErr → Bool
  | .conflict _ => true
  | .wrapped _ e => e.isConflict
  | _ => false

/-- A stored object: its identifying name and namespace, the opaque
resource-version stamp, and all remaining fields collapsed into an opaque
payload (the code never inspects them). -/
structure Obj where
  name : String
  nspace : String
  resourceVersion : String
  payload : String
deriving DecidableEq, Repr

/-- `types.NamespacedName{Name: obj.GetName(), Namespace: obj.GetNamespace()}`
rendered as its `String()` form `namespace/name`. -/
def nnKey (o : Obj) : String := o.nspace ++ "/" ++ o.name

/-- Go `%q` applied to the key (no escaping needed for slash-separated keys). -/
def quoteGo (s : String) : String := "\"" ++ s ++ "\""

/-- Message of `fmt.Errorf("failed to fetch latest %q for update: %w", key, err)`. -/
def fetchFailMsg (key : String) : String :=
  "failed to fetch latest " ++ quoteGo key ++ " for update"

/-- Message of `fmt.Errorf("failed to update %q resource: %w", key, err)`. -/
def updateFailMsg (key : String) : String :=
  "failed to update " ++ quoteGo key ++ " resource"

/-- Primitive operations issued by the client implementation, recorded in
traces. `clientGet` is a read through the embedded cache-backed
`c.Client`; `apiReaderGet` is a read through the direct `c.apiReader`
(`mgr.GetAPIReader()`), which bypasses the cache. Write operations carry
the object value submitted to the store. -/
inductive OpCall where
  | clientGet (key : String)
  | apiReaderGet (key : String)
  | create (o : Obj)
  | update (o : Obj)
  | statusUpdate (o : Obj)
deriving DecidableEq, Repr

/-- `customCtrlClientImpl.Get`: read via the cache-backed client; on a
NotFound-classified error read again via the direct `apiReader` and
return that result; any other outcome is returned as-is. The readers are
oracles `ObjectKey → result`. -/
def customGet (cacheGet directGet : String → Except KErr Obj) (key : String) :
    Except KErr Obj :=
  match cacheGet key with
  | .error e => if e.isNotFound then directGet key else .error e
  | .ok o => .ok o

/-- `customCtrlClientImpl.Exists`: `c.Client.Get`, classifying NotFound as
`(false, nil)`, other errors as `(false, err)`, success as `(true, nil)`. -/
def existsImpl (cacheGet : String → Except KErr Obj) (key : String) :
    Bool × Option KErr :=
  match cacheGet key with
  | .error e => if e.isNotFound then (false, none) else (false, some e)
  | .ok _ => (true, none)

/-- `customCtrlClientImpl.CreateOrUpdateObject`: one Create; on an
AlreadyExists-classified failure, one Update with the caller's object
as-is; otherwise return the Create outcome. Returns the result together
with the trace of write operations issued. -/
def createOrUpdateObject (obj : Obj) (createRes updateRes : Except KErr Unit) :
    Except KErr Unit × List OpCall :=
  match createRes with
  | .error e =>
      if e.isAlreadyExists then (updateRes, [.create obj, .update obj])
      else (.error e, [.create obj])
  | .ok _ => (.ok (), [.create obj])

/-- A sample stored object used by concrete witnesses. -/
def sampleObj : Obj :=
  { name := "a", nspace := "ns", resourceVersion := "5", payload := "p" }

/-- The resource kinds named in the catalog lists of `client.go`. -/
inductive Kind where
  | role
  | roleBinding
  | clusterRole
  | clusterRoleBinding
  | csiDriver
  | serviceAccount
  | service
  | configMap
  | deployment
  | daemonSet
  | statefulSet
  | validatingWebhookConfiguration
  | zeroTrustWorkloadIdentityManager
  | spireAgent
  | spiffeCSIDriver
  | spireServer
  | spireOIDCDiscoveryProvider
deriving DecidableEq, Repr

/-- Modelled from the spec: the fixed ownership-label key
`utils.AppManagedByLabelKey` lives in `pkg/controller/utils`, which is
not part of the sources here; the spec fixes the scoping label as
`app-managed-by`. -/
def appManagedByLabelKey : String := "app-managed-by"

/-- Modelled from the spec: the fixed controller-identity value
`utils.AppManagedByLabelValue` lives in `pkg/controller/utils`, which is
not part of the sources here; the spec's scenario fixes it as
`zero-trust-workload-identity-manager`. -/
def appManagedByLabelValue : String := "zero-trust-workload-identity-manager"

/-- A label-selector requirement `key <op> values` as built by
`labels.NewRequirement`; only the equality operator is used here. -/
structure Requirement where
  key : String
  values : List String
deriving DecidableEq, Repr

/-- `managedResourceLabelReqSelector`: the selector holding the single
equality requirement on the ownership label. -/
def managedResourceLabelReqSelector : Requirement :=
  { key := appManagedByLabelKey, values := [appManagedByLabelValue] }

/-- Whether a labelled object satisfies an equality requirement. -/
def Requirement.matches (r : Requirement) (labels : List (String × String)) : Bool :=
  match labels.lookup r.key with
  | some v => r.values.contains v
  | none => false

/-- `cacheResources`: the kinds cached behind the ownership-label filter,
in source order. -/
def cacheResources : List Kind :=
  [.role, .roleBinding, .clusterRole, .clusterRoleBinding, .csiDriver,
   .serviceAccount, .service, .configMap, .deployment, .daemonSet,
   .statefulSet, .validatingWebhookConfiguration]

/-- `cacheResourceWithoutReqSelectors`: the operator's own CRD kinds,
cached with no label filter, in source order. -/
def cacheResourceWithoutReqSelectors : List Kind :=
  [.zeroTrustWorkloadIdentityManager, .spireAgent, .spiffeCSIDriver,
   .spireServer, .spireOIDCDiscoveryProvider]

/-- `informerResources`: the kinds for which an informer is eagerly
established at construction, in source order. -/
def informerResources : List Kind :=
  [.serviceAccount, .service, .role, .roleBinding, .clusterRole,
   .clusterRoleBinding, .csiDriver, .configMap, .deployment, .daemonSet,
   .statefulSet, .validatingWebhookConfiguration,
   .zeroTrustWorkloadIdentityManager, .spireAgent, .spiffeCSIDriver,
   .spireServer, .spireOIDCDiscoveryProvider]

/-- The `customCacheObjects` map built by the two loops of
`BuildCustomClient`: each filtered kind is bound to
`cache.ByObject{Label: managedResourceLabelReqSelector}` (`some` the
selector) and each unfiltered kind to the empty `cache.ByObject{}`
(`none`); the two key sets are disjoint, so the association list is the
map. -/
def customCacheObjects : List (Kind × Option Requirement) :=
  cacheResources.map (fun k => (k, some managedResourceLabelReqSelector)) ++
    cacheResourceWithoutReqSelectors.map (fun k => (k, none))

/-- Outcome oracle for the fallible steps of `BuildCustomClient`:
`labels.NewRequirement`, `cache.New`, each `customCache.GetInformer`,
`mgr.Add`, and `client.New`. -/
structure BuildEnv where
  newRequirementErr : Option KErr
  cacheNewErr : Option KErr
  informerErr : Kind → Option KErr
  addErr : Option KErr
  clientNewErr : Option KErr

/-- The informer loop of `BuildCustomClient`: establish the informer of
every kind in order, aborting with the first error. -/
def getInformers (informerErr : Kind → Option KErr) : List Kind → Option KErr
  | [] => none
  | k :: rest =>
      match informerErr k with
      | some e => some e
      | none => getInformers informerErr rest

/-- `BuildCustomClient`: build the requirement and the filtered cache
options, create the cache, eagerly establish every informer of
`informerResources`, register the cache with the manager, and build the
cache-backed client; any step's error aborts construction. The built
client is represented by its cache configuration. -/
def buildCustomClient (env : BuildEnv) :
    Except KErr (List (Kind × Option Requirement)) :=
  match env.newRequirementErr with
  | some e => .error e
  | none =>
    match env.cacheNewErr with
    | some e => .error e
    | none =>
      match getInformers env.informerErr informerResources with
      | some e => .error e
      | none =>
        match env.addErr with
        | some e => .error e
        | none =>
          match env.clientNewErr with
          | some e => .error e
          | none => .ok customCacheObjects

/-- `NewCustomClient`: wrap a `BuildCustomClient` failure with the
`failed to build custom client` context and return no client; on success
return the client. -/
def newCustomClient (env : BuildEnv) :
    Except KErr (List (Kind × Option Requirement)) :=
  match buildCustomClient env with
  | .error e => .error (.wrapped "failed to build custom client" e)
  | .ok c => .ok c

/-- Oracle for one attempt of the retry loop: the outcome of the
`c.Client.Get(ctx, key, current)` read and the outcome of the submitted
write on that attempt. -/
structure Attempt where
  getRes : Except KErr Obj
  updRes : Except KErr Unit
deriving Repr

/-- State threaded through the retry loop: the index of the next attempt,
the caller-supplied object (whose resource version the code mutates in
place), and the trace of operations issued so far. -/
structure LoopState where
  idx : Nat
  obj : Obj
  trace : List OpCall
deriving DecidableEq, Repr

/-- `wait.ErrWaitTimeout`, returned by `wait.ExponentialBackoff` when the
step budget is exhausted (replaced by the last retriable error in
`retry.OnError`). -/
def errWaitTimeout : KErr := .other "timed out waiting for the condition"

/-- `retry.OnError` over `wait.ExponentialBackoff`: run `fn` up to `n`
times; stop on success or on a non-retriable error; once the budget is
exhausted return the last retriable error (`lastErr`). -/
def onErrorAux {σ : Type} (retriable : KErr → Bool)
    (fn : σ → σ × Except KErr Unit) :
    Nat → σ → Option KErr → σ × Except KErr Unit
  | 0, s, lastErr => (s, .error (lastErr.getD errWaitTimeout))
  | n + 1, s, _ =>
    match fn s with
    | (s₁, .ok _) => (s₁, .ok ())
    | (s₁, .error e) =>
        if retriable e then onErrorAux retriable fn n s₁ (some e)
        else (s₁, .error e)

/-- Shared body of the closures passed to `retry.RetryOnConflict` by
`UpdateWithRetry` and `StatusUpdateWithRetry` (they differ only in the
write they submit, `c.Client.Update` versus `c.Client.Status().Update`,
abstracted as `wr`): read the current stored copy via the cache-backed
`c.Client.Get` into a fresh object, failing the attempt with a wrapped
fetch error if the read fails; overwrite the caller object's resource
version with the freshly read one; submit the write, wrapping any write
error. -/
def retryAttemptFn (wr : Obj → OpCall) (key : String) (env : Nat → Attempt)
    (s : LoopState) : LoopState × Except KErr Unit :=
  match (env s.idx).getRes with
  | .error e =>
      ({ idx := s.idx + 1, obj := s.obj, trace := s.trace ++ [.clientGet key] },
       .error (.wrapped (fetchFailMsg key) e))
  | .ok current =>
      let obj₂ := { s.obj with resourceVersion := current.resourceVersion }
      let s₂ : LoopState :=
        { idx := s.idx + 1, obj := obj₂,
          trace := s.trace ++ [.clientGet key, wr obj₂] }
      match (env s.idx).updRes with
      | .error e => (s₂, .error (.wrapped (updateFailMsg key) e))
      | .ok _ => (s₂, .ok ())

/-- `retry.DefaultRetry.Steps` from `k8s.io/client-go/util/retry`: the
bounded attempt budget of the default backoff policy. -/
def defaultRetrySteps : Nat := 5

/-- `customCtrlClientImpl.UpdateWithRetry`: `retry.RetryOnConflict` with
the default policy around the read/overwrite-version/update attempt,
keyed by the caller object's namespace and name. Returns the final loop
state (mutated caller object and operation trace) with the result. -/
def updateWithRetry (env : Nat → Attempt) (obj : Obj) :
    LoopState × Except KErr Unit :=
  onErrorAux KErr.isConflict (retryAttemptFn OpCall.update (nnKey obj) env)
    defaultRetrySteps { idx := 0, obj := obj, trace := [] } none

/-- `customCtrlClientImpl.StatusUpdateWithRetry`: identical to
`UpdateWithRetry` except that the submitted write is the
status-subresource update. -/
def statusUpdateWithRetry (env : Nat → Attempt) (obj : Obj) :
    LoopState × Except KErr Unit :=
  onErrorAux KErr.isConflict (retryAttemptFn OpCall.statusUpdate (nnKey obj) env)
    defaultRetrySteps { idx := 0, obj := obj, trace := [] } none

/-- Agreement of two objects on every field except the resource version. -/
def offRV (a b : Obj) : Prop :=
  a.name = b.name ∧ a.nspace = b.nspace ∧ a.payload = b.payload

/-- Whether an operation is a read through the direct bypass-cache reader. -/
def OpCall.isApiReaderGet : OpCall → Bool
  | .apiReaderGet _ => true
  | _ => false

theorem isConflict_wrapped (ctx : String) (e : KErr) :
    (KErr.wrapped ctx e).isConflict = e.isConflict := rfl

theorem isNotFound_wrapped (ctx : String) (e : KErr) :
    (KErr.wrapped ctx e).isNotFound = e.isNotFound := rfl

theorem onErrorAux_succ {σ : Type} (r : KErr → Bool)
    (fn : σ → σ × Except KErr Unit) (n : Nat) (s : σ) (le : Option KErr) :
    onErrorAux r fn (n + 1) s le =
      match fn s with
      | (s₁, .ok _) => (s₁, .ok ())
      | (s₁, .error e) =>
          if r e then onErrorAux r fn n s₁ (some e) else (s₁, .error e) := by
  rfl

theorem onErrorAux_zero {σ : Type} (r : KErr → Bool)
    (fn : σ → σ × Except KErr Unit) (s : σ) (le : Option KErr) :
    onErrorAux r fn 0 s le = (s, .error (le.getD errWaitTimeout)) := rfl

theorem retryAttemptFn_get_err (wr : Obj → OpCall) (key : String)
    (env : Nat → Attempt) (s : LoopState) (e : KErr)
    (hg : (env s.idx).getRes = .error e) :
    retryAttemptFn wr key env s =
      ({ idx := s.idx + 1, obj := s.obj, trace := s.trace ++ [.clientGet key] },
       .error (.wrapped (fetchFailMsg key) e)) := by
  simp [retryAttemptFn, hg]

theorem retryAttemptFn_upd_err (wr : Obj → OpCall) (key : String)
    (env : Nat → Attempt) (s : LoopState) (cur : Obj) (e : KErr)
    (hg : (env s.idx).getRes = .ok cur) (hu : (env s.idx).updRes = .error e) :
    retryAttemptFn wr key env s =
      ({ idx := s.idx + 1,
         obj := { s.obj with resourceVersion := cur.resourceVersion },
         trace := s.trace ++
           [.clientGet key, wr { s.obj with resourceVersion := cur.resourceVersion }] },
       .error (.wrapped (updateFailMsg key) e)) := by
  simp [retryAttemptFn, hg, hu]

theorem retryAttemptFn_upd_ok (wr : Obj → OpCall) (key : String)
    (env : Nat → Attempt) (s : LoopState) (cur : Obj)
    (hg : (env s.idx).getRes = .ok cur) (hu : (env s.idx).updRes = .ok ()) :
    retryAttemptFn wr key env s =
      ({ idx := s.idx + 1,
         obj := { s.obj with resourceVersion := cur.resourceVersion },
         trace := s.trace ++
           [.clientGet key, wr { s.obj with resourceVersion := cur.resourceVersion }] },
       .ok ()) := by
  simp [retryAttemptFn, hg, hu]

/-- Invariant preservation through the retry combinator. -/
theorem onErrorAux_inv {σ : Type} (P : σ → Prop) (r : KErr → Bool)
    (fn : σ → σ × Except KErr Unit) (hfn : ∀ s, P s → P (fn s).1) :
    ∀ n s le, P s → P (onErrorAux r fn n s le).1 := by
  intro n
  induction n with
  | zero => intro s le hs; simpa [onErrorAux_zero] using hs
  | succ n ih =>
      intro s le hs
      have h1 : P (fn s).1 := hfn s hs
      rcases hfs : fn s with ⟨s₁, res⟩
      rw [hfs] at h1
      rw [onErrorAux_succ, hfs]
      cases res with
      | ok u => exact h1
      | error e =>
          by_cases hr : r e
          · simp only [hr, if_true]
            exact ih s₁ (some e) h1
          · simp only [hr, if_false]
            exact h1

/-- Budget exhaustion under sustained conflicts: if every attempt in the
remaining budget reads successfully and has its write rejected with a
conflict, the loop returns the last wrapped write error, which is still
Conflict-classified. -/
theorem onErrorAux_conflict_exhaust (wr : Obj → OpCall) (key : String)
    (env : Nat → Attempt) :
    ∀ n s le, n ≠ 0 →
    (∀ i, s.idx ≤ i → i < s.idx + n →
        ∃ cur e, (env i).getRes = .ok cur ∧ (env i).updRes = .error e ∧
          e.isConflict = true) →
    ∃ e, (onErrorAux KErr.isConflict (retryAttemptFn wr key env) n s le).2
        = .error (.wrapped (updateFailMsg key) e) ∧ e.isConflict = true := by
  intro n
  induction n with
  | zero => intro s le h0 _; exact absurd rfl h0
  | succ m ih =>
      intro s le _ hall
      obtain ⟨cur, e, hg, hu, hc⟩ := hall s.idx (Nat.le_refl _) (by omega)
      have hfs := retryAttemptFn_upd_err wr key env s cur e hg hu
      have hw : (KErr.wrapped (updateFailMsg key) e).isConflict = true := by
        simpa [isConflict_wrapped] using hc
      rw [onErrorAux_succ, hfs]
      simp only [hw, if_true]
      cases m with
      | zero =>
          exact ⟨e, by simp [onErrorAux_zero], hc⟩
      | succ k =>
          apply ih _ _ (Nat.succ_ne_zero k)
          intro i hlo hhi
          have hlo' : s.idx + 1 ≤ i := hlo
          have hhi' : i < s.idx + 1 + (k + 1) := hhi
          exact hall i (by omega) (by omega)

/-- C5: In UpdateWithRetry and StatusUpdateWithRetry, if the per-attempt
read of the current stored copy fails, the whole operation fails
immediately with that read error (wrapped with fetch context, its
classification preserved) and the read is not retried: the final trace is
the single read, with no write submitted and no further attempt. The
hypothesis that the read error is not Conflict-classified reflects the
store contract: version-conflict classifications arise only from
conditional writes, never from point reads. -/
theorem retry_read_failure_aborts (env : Nat → Attempt) (obj : Obj) (e : KErr)
    (hg : (env 0).getRes = .error e) (hc : e.isConflict = false) :
    updateWithRetry env obj
      = ({ idx := 1, obj := obj, trace := [.clientGet (nnKey obj)] },
         .error (.wrapped (fetchFailMsg (nnKey obj)) e)) ∧
    statusUpdateWithRetry env obj
      = ({ idx := 1, obj := obj, trace := [.clientGet (nnKey obj)] },
         .error (.wrapped (fetchFailMsg (nnKey obj)) e)) ∧
    (KErr.wrapped (fetchFailMsg (nnKey obj)) e).isNotFound = e.isNotFound := by
  have hw : (KErr.wrapped (fetchFailMsg (nnKey obj)) e).isConflict = false := by
    simpa [isConflict_wrapped] using hc
  refine ⟨?_, ?_, rfl⟩
  · rw [updateWithRetry, show defaultRetrySteps = 4 + 1 from rfl, onErrorAux_succ,
      retryAttemptFn_get_err OpCall.update (nnKey obj) env
        { idx := 0, obj := obj, trace := [] } e hg]
    simp [hw]
  · rw [statusUpdateWithRetry, show defaultRetrySteps = 4 + 1 from rfl, onErrorAux_succ,
      retryAttemptFn_get_err OpCall.statusUpdate (nnKey obj) env
        { idx := 0, obj := obj, trace := [] } e hg]
    simp [hw]

/-- Witness for C5: a concrete NotFound read failure on the first attempt
aborts both retry variants at once with the wrapped read error. -/
theorem retry_read_failure_aborts_witness :
    updateWithRetry (fun _ => ⟨.error (.notFound "a"), .ok ()⟩) sampleObj
      = ({ idx := 1, obj := sampleObj, trace := [.clientGet "ns/a"] },
         .error (.wrapped (fetchFailMsg "ns/a") (.notFound "a"))) ∧
    statusUpdateWithRetry (fun _ => ⟨.error (.notFound "a"), .ok ()⟩) sampleObj
      = ({ idx := 1, obj := sampleObj, trace := [.clientGet "ns/a"] },
         .error (.wrapped (fetchFailMsg "ns/a") (.notFound "a"))) :=
  ⟨(retry_read_failure_aborts (fun _ => ⟨.error (.notFound "a"), .ok ()⟩)
      sampleObj (.notFound "a") rfl rfl).1,
   (retry_read_failure_aborts (fun _ => ⟨.error (.notFound "a"), .ok ()⟩)
      sampleObj (.notFound "a") rfl rfl).2.1⟩

/-- C4: the retry loop of UpdateWithRetry and StatusUpdateWithRetry:
a successful write terminates the loop successfully; a write rejected
with a non-conflict classification aborts the loop and surfaces that
error (wrapped with the update context); the Conflict classification
survives the wrapping applied to write errors, so a conflict-rejected
write is retried — a conflict on attempt 0 followed by a clean attempt 1
still ends in overall success; and when the whole default budget sees
conflicts the call fails with a Conflict-classified error whose context
names the object key. -/
theorem retry_conflict_loop_classification (env : Nat → Attempt) (obj : Obj)
    (cur : Obj) (e : KErr) :
    ((env 0).getRes = .ok cur → (env 0).updRes = .ok () →
      (updateWithRetry env obj).2 = .ok () ∧
      (statusUpdateWithRetry env obj).2 = .ok ()) ∧
    ((env 0).getRes = .ok cur → (env 0).updRes = .error e → e.isConflict = false →
      (updateWithRetry env obj).2
        = .error (.wrapped (updateFailMsg (nnKey obj)) e) ∧
      (statusUpdateWithRetry env obj).2
        = .error (.wrapped (updateFailMsg (nnKey obj)) e)) ∧
    ((KErr.wrapped (updateFailMsg (nnKey obj)) e).isConflict = e.isConflict) ∧
    ((env 0).getRes = .ok cur → (env 0).updRes = .error e → e.isConflict = true →
      ∀ cur₁, (env 1).getRes = .ok cur₁ → (env 1).updRes = .ok () →
      (updateWithRetry env obj).2 = .ok () ∧
      (statusUpdateWithRetry env obj).2 = .ok ()) ∧
    ((∀ i, i < defaultRetrySteps →
        ∃ c e₂, (env i).getRes = .ok c ∧ (env i).updRes = .error e₂ ∧
          e₂.isConflict = true) →
      (∃ e₂, (updateWithRetry env obj).2
          = .error (.wrapped (updateFailMsg (nnKey obj)) e₂) ∧
          e₂.isConflict = true) ∧
      (∃ e₂, (statusUpdateWithRetry env obj).2
          = .error (.wrapped (updateFailMsg (nnKey obj)) e₂) ∧
          e₂.isConflict = true)) := by
  refine ⟨?_, ?_, rfl, ?_, ?_⟩
  · intro hg hu
    constructor
    · rw [updateWithRetry, show defaultRetrySteps = 4 + 1 from rfl, onErrorAux_succ,
        retryAttemptFn_upd_ok OpCall.update (nnKey obj) env
          { idx := 0, obj := obj, trace := [] } cur hg hu]
    · rw [statusUpdateWithRetry, show defaultRetrySteps = 4 + 1 from rfl, onErrorAux_succ,
        retryAttemptFn_upd_ok OpCall.statusUpdate (nnKey obj) env
          { idx := 0, obj := obj, trace := [] } cur hg hu]
  · intro hg hu hc
    have hw : (KErr.wrapped (updateFailMsg (nnKey obj)) e).isConflict = false := by
      simpa [isConflict_wrapped] using hc
    constructor
    · rw [updateWithRetry, show defaultRetrySteps = 4 + 1 from rfl, onErrorAux_succ,
        retryAttemptFn_upd_err OpCall.update (nnKey obj) env
          { idx := 0, obj := obj, trace := [] } cur e hg hu]
      simp [hw]
    · rw [statusUpdateWithRetry, show defaultRetrySteps = 4 + 1 from rfl, onErrorAux_succ,
        retryAttemptFn_upd_err OpCall.statusUpdate (nnKey obj) env
          { idx := 0, obj := obj, trace := [] } cur e hg hu]
      simp [hw]
  · intro hg hu hc cur₁ hg1 hu1
    have hw : (KErr.wrapped (updateFailMsg (nnKey obj)) e).isConflict = true := by
      simpa [isConflict_wrapped] using hc
    constructor
    · rw [updateWithRetry, show defaultRetrySteps = 4 + 1 from rfl, onErrorAux_succ,
        retryAttemptFn_upd_err OpCall.update (nnKey obj) env
          { idx := 0, obj := obj, trace := [] } cur e hg hu]
      simp only [hw, if_true]
      rw [show (4 : Nat) = 3 + 1 from rfl, onErrorAux_succ,
        retryAttemptFn_upd_ok OpCall.update (nnKey obj) env _ cur₁ hg1 hu1]
    · rw [statusUpdateWithRetry, show defaultRetrySteps = 4 + 1 from rfl, onErrorAux_succ,
        retryAttemptFn_upd_err OpCall.statusUpdate (nnKey obj) env
          { idx := 0, obj := obj, trace := [] } cur e hg hu]
      simp only [hw, if_true]
      rw [show (4 : Nat) = 3 + 1 from rfl, onErrorAux_succ,
        retryAttemptFn_upd_ok OpCall.statusUpdate (nnKey obj) env _ cur₁ hg1 hu1]
  · intro hall
    constructor
    · exact onErrorAux_conflict_exhaust OpCall.update (nnKey obj) env
        defaultRetrySteps { idx := 0, obj := obj, trace := [] } none
        (by decide) (fun i _ hhi => hall i (by simpa using hhi))
    · exact onErrorAux_conflict_exhaust OpCall.statusUpdate (nnKey obj) env
        defaultRetrySteps { idx := 0, obj := obj, trace := [] } none
        (by decide) (fun i _ hhi => hall i (by simpa using hhi))

/-- Witness for C4: with a store whose writes always conflict, both retry
variants exhaust the default budget and fail with the wrapped conflict
error naming the key; with a store that conflicts once and then accepts,
both succeed. -/
theorem retry_conflict_loop_classification_witness :
    (∃ e₂, (updateWithRetry (fun _ => ⟨.ok sampleObj, .error (.conflict "a")⟩)
          sampleObj).2
        = .error (.wrapped (updateFailMsg "ns/a") e₂) ∧ e₂.isConflict = true) ∧
    (updateWithRetry
        (fun i => if i = 0 then ⟨.ok sampleObj, .error (.conflict "a")⟩
                  else ⟨.ok sampleObj, .ok ()⟩) sampleObj).2 = .ok () := by
  constructor
  · exact ((retry_conflict_loop_classification
      (fun _ => ⟨.ok sampleObj, .error (.conflict "a")⟩) sampleObj sampleObj
      (.conflict "a")).2.2.2.2
      (fun i _ => ⟨sampleObj, .conflict "a", rfl, rfl, rfl⟩)).1
  · exact ((retry_conflict_loop_classification
      (fun i => if i = 0 then ⟨.ok sampleObj, .error (.conflict "a")⟩
                else ⟨.ok sampleObj, .ok ()⟩) sampleObj sampleObj
      (.conflict "a")).2.2.2.1 rfl rfl rfl sampleObj rfl rfl).1

theorem retryAttemptFn_trace_shape (wr : Obj → OpCall) (key : String)
    (env : Nat → Attempt) (s : LoopState) :
    (retryAttemptFn wr key env s).1.trace = s.trace ++ [.clientGet key] ∨
    ∃ o, (retryAttemptFn wr key env s).1.trace
        = s.trace ++ [.clientGet key, wr o] := by
  unfold retryAttemptFn
  cases (env s.idx).getRes with
  | error e => left; rfl
  | ok cur =>
      cases (env s.idx).updRes with
      | error e => right; exact ⟨_, rfl⟩
      | ok u => right; exact ⟨_, rfl⟩

theorem retryAttemptFn_offRV (wr : Obj → OpCall) (key : String)
    (env : Nat → Attempt) (s : LoopState) (orig : Obj)
    (h : offRV s.obj orig) :
    offRV (retryAttemptFn wr key env s).1.obj orig := by
  unfold retryAttemptFn
  cases (env s.idx).getRes with
  | error e => exact h
  | ok cur =>
      cases (env s.idx).updRes with
      | error e => exact ⟨h.1, h.2.1, h.2.2⟩
      | ok u => exact ⟨h.1, h.2.1, h.2.2⟩

/-- The resource version submitted with every write of the retry loop was
obtained from the fresh read of the same attempt, while all other fields
of the submitted object are exactly the caller's. -/
theorem retryLoop_writes_use_fresh_rv (wr : Obj → OpCall) (key : String)
    (env : Nat → Attempt)
    (hwr : ∀ o k, wr o ≠ OpCall.clientGet k)
    (hinj : ∀ o o', wr o = wr o' → o = o') (orig : Obj) :
    ∀ n s le,
    (offRV s.obj orig ∧ ∀ o, wr o ∈ s.trace →
        ∃ i cur, (env i).getRes = .ok cur ∧
          o = { orig with resourceVersion := cur.resourceVersion }) →
    (offRV (onErrorAux KErr.isConflict (retryAttemptFn wr key env) n s le).1.obj
        orig ∧
     ∀ o, wr o ∈
        (onErrorAux KErr.isConflict (retryAttemptFn wr key env) n s le).1.trace →
        ∃ i cur, (env i).getRes = .ok cur ∧
          o = { orig with resourceVersion := cur.resourceVersion }) := by
  intro n s le hP
  refine onErrorAux_inv
    (fun s => offRV s.obj orig ∧ ∀ o, wr o ∈ s.trace →
        ∃ i cur, (env i).getRes = .ok cur ∧
          o = { orig with resourceVersion := cur.resourceVersion })
    KErr.isConflict (retryAttemptFn wr key env) ?_ n s le hP
  intro t ht
  refine ⟨retryAttemptFn_offRV wr key env t orig ht.1, ?_⟩
  intro o ho
  unfold retryAttemptFn at ho
  cases hg : (env t.idx).getRes with
  | error e =>
      rw [hg] at ho
      simp only [List.mem_append, List.mem_singleton] at ho
      rcases ho with ho | ho
      · exact ht.2 o ho
      · exact absurd ho (hwr o key)
  | ok cur =>
      have hobj : { t.obj with resourceVersion := cur.resourceVersion }
          = { orig with resourceVersion := cur.resourceVersion } := by
        obtain ⟨h1, h2, h3⟩ := ht.1
        simp only [Obj.mk.injEq]
        exact ⟨h1, h2, trivial, h3⟩
      rw [hg] at ho
      cases hu : (env t.idx).updRes with
      | error e =>
          rw [hu] at ho
          simp only [List.mem_append, List.mem_cons, List.mem_singleton,
            List.not_mem_nil, or_false] at ho
          rcases ho with ho | ho | ho
          · exact ht.2 o ho
          · exact absurd ho (hwr o key)
          · exact ⟨t.idx, cur, hg, by rw [hinj o _ ho, hobj]⟩
      | ok u =>
          rw [hu] at ho
          simp only [List.mem_append, List.mem_cons, List.mem_singleton,
            List.not_mem_nil, or_false] at ho
          rcases ho with ho | ho | ho
          · exact ht.2 o ho
          · exact absurd ho (hwr o key)
          · exact ⟨t.idx, cur, hg, by rw [hinj o _ ho, hobj]⟩

/-- Counterexample for C2 as stated: at a concrete successful
single-attempt run, the per-attempt read in the trace of UpdateWithRetry
and of StatusUpdateWithRetry is the cache-backed `c.Client.Get`
(`clientGet`), and no read through the direct bypass-cache reader
(`apiReaderGet`) occurs anywhere in either trace. -/
theorem retry_read_not_direct_counterexample :
    (updateWithRetry (fun _ => ⟨.ok sampleObj, .ok ()⟩) sampleObj).1.trace
      = [.clientGet "ns/a", .update sampleObj] ∧
    ((updateWithRetry (fun _ => ⟨.ok sampleObj, .ok ()⟩) sampleObj).1.trace.any
        fun op => op.isApiReaderGet) = false ∧
    (statusUpdateWithRetry (fun _ => ⟨.ok sampleObj, .ok ()⟩) sampleObj).1.trace
      = [.clientGet "ns/a", .statusUpdate sampleObj] ∧
    ((statusUpdateWithRetry (fun _ => ⟨.ok sampleObj, .ok ()⟩) sampleObj).1.trace.any
        fun op => op.isApiReaderGet) = false := by
  refine ⟨rfl, rfl, rfl, rfl⟩

/-- C2 (amended): on every attempt of UpdateWithRetry and of
StatusUpdateWithRetry, the current stored copy is read via the embedded
cache-backed client (`c.Client.Get`), not via the direct bypass-cache
reader: every operation either variant ever issues is that cache-backed
read keyed by the object's namespace/name, or the submitted write — the
direct reader is never consulted. -/
theorem retry_reads_via_cache_client (env : Nat → Attempt) (obj : Obj) :
    (∀ op ∈ (updateWithRetry env obj).1.trace,
        op = .clientGet (nnKey obj) ∨ ∃ o, op = .update o) ∧
    (∀ op ∈ (statusUpdateWithRetry env obj).1.trace,
        op = .clientGet (nnKey obj) ∨ ∃ o, op = .statusUpdate o) := by
  constructor
  · refine onErrorAux_inv
      (fun s => ∀ op ∈ s.trace, op = .clientGet (nnKey obj) ∨ ∃ o, op = .update o)
      KErr.isConflict (retryAttemptFn OpCall.update (nnKey obj) env) ?_
      defaultRetrySteps { idx := 0, obj := obj, trace := [] } none (by simp)
    intro t ht op hop
    rcases retryAttemptFn_trace_shape OpCall.update (nnKey obj) env t with h | ⟨o, h⟩
    · rw [h] at hop
      rcases List.mem_append.mp hop with h1 | h1
      · exact ht op h1
      · left; simpa using h1
    · rw [h] at hop
      rcases List.mem_append.mp hop with h1 | h1
      · exact ht op h1
      · simp only [List.mem_cons, List.mem_singleton, List.not_mem_nil,
          or_false] at h1
        rcases h1 with h1 | h1
        · left; exact h1
        · right; exact ⟨o, h1⟩
  · refine onErrorAux_inv
      (fun s => ∀ op ∈ s.trace,
        op = .clientGet (nnKey obj) ∨ ∃ o, op = .statusUpdate o)
      KErr.isConflict (retryAttemptFn OpCall.statusUpdate (nnKey obj) env) ?_
      defaultRetrySteps { idx := 0, obj := obj, trace := [] } none (by simp)
    intro t ht op hop
    rcases retryAttemptFn_trace_shape OpCall.statusUpdate (nnKey obj) env t
      with h | ⟨o, h⟩
    · rw [h] at hop
      rcases List.mem_append.mp hop with h1 | h1
      · exact ht op h1
      · left; simpa using h1
    · rw [h] at hop
      rcases List.mem_append.mp hop with h1 | h1
      · exact ht op h1
      · simp only [List.mem_cons, List.mem_singleton, List.not_mem_nil,
          or_false] at h1
        rcases h1 with h1 | h1
        · left; exact h1
        · right; exact ⟨o, h1⟩

/-- Witness for the amended C2: the read issued by a concrete run is
classified by the theorem as the cache-backed read or a write. -/
theorem retry_reads_via_cache_client_witness :
    OpCall.clientGet "ns/a" = OpCall.clientGet (nnKey sampleObj) ∨
      ∃ o, OpCall.clientGet "ns/a" = OpCall.update o :=
  (retry_reads_via_cache_client (fun _ => ⟨.ok sampleObj, .ok ()⟩) sampleObj).1
    (OpCall.clientGet "ns/a") (by decide)

/-- C6: before every write submitted by UpdateWithRetry or
StatusUpdateWithRetry, the version stamp on the caller-supplied object is
overwritten with the version stamp obtained from the freshly read current
stored copy, and the object is otherwise submitted as-is: every submitted
object equals the caller's object with its resource version replaced by
one returned by a read of the store — never a fabricated stamp. -/
theorem retry_version_stamp_from_fresh_read (env : Nat → Attempt) (obj : Obj) :
    (∀ o, OpCall.update o ∈ (updateWithRetry env obj).1.trace →
        ∃ i cur, (env i).getRes = .ok cur ∧
          o = { obj with resourceVersion := cur.resourceVersion }) ∧
    (∀ o, OpCall.statusUpdate o ∈ (statusUpdateWithRetry env obj).1.trace →
        ∃ i cur, (env i).getRes = .ok cur ∧
          o = { obj with resourceVersion := cur.resourceVersion }) := by
  constructor
  · exact (retryLoop_writes_use_fresh_rv OpCall.update (nnKey obj) env
      (fun o k => by simp) (fun o o' h => by simpa using h) obj
      defaultRetrySteps { idx := 0, obj := obj, trace := [] } none
      ⟨⟨rfl, rfl, rfl⟩, by simp⟩).2
  · exact (retryLoop_writes_use_fresh_rv OpCall.statusUpdate (nnKey obj) env
      (fun o k => by simp) (fun o o' h => by simpa using h) obj
      defaultRetrySteps { idx := 0, obj := obj, trace := [] } none
      ⟨⟨rfl, rfl, rfl⟩, by simp⟩).2

/-- Store oracle whose reads always return `sampleObj` at resource
version `"9"` and whose writes succeed, used by the C6 witness. -/
def freshRvEnv : Nat → Attempt :=
  fun _ => ⟨.ok { sampleObj with resourceVersion := "9" }, .ok ()⟩

/-- Witness for C6: the write submitted in a concrete run carries the
freshly read resource version `"9"` on the caller's object. -/
theorem retry_version_stamp_from_fresh_read_witness :
    ∃ i : Nat, ∃ cur, (freshRvEnv i).getRes = .ok cur ∧
      ({ sampleObj with resourceVersion := "9" } : Obj)
        = { sampleObj with resourceVersion := cur.resourceVersion } :=
  (retry_version_stamp_from_fresh_read freshRvEnv sampleObj).1
    { sampleObj with resourceVersion := "9" } (by decide)

/-- A caller object holding a stale resource version, used to exhibit the
visible version mutation of C10. -/
def staleObj : Obj :=
  { name := "a", nspace := "ns", resourceVersion := "1", payload := "p" }

/-- C10: UpdateWithRetry and StatusUpdateWithRetry modify no field of the
caller-supplied object other than its resource version (each attempt
reads the stored copy into a fresh object, represented by the separate
`current` value, never into the caller's object); and the mutated
resource version remains visible on the caller's object even when the
call returns an error, exhibited by a run whose write is rejected with a
non-conflict error after the stale version `"1"` was overwritten with the
freshly read `"5"`. -/
theorem retry_frames_caller_object (env : Nat → Attempt) (obj : Obj) :
    offRV (updateWithRetry env obj).1.obj obj ∧
    offRV (statusUpdateWithRetry env obj).1.obj obj ∧
    ((updateWithRetry (fun _ => ⟨.ok sampleObj, .error (.other "boom")⟩)
        staleObj).2
      = .error (.wrapped (updateFailMsg "ns/a") (.other "boom")) ∧
     staleObj.resourceVersion = "1" ∧
     (updateWithRetry (fun _ => ⟨.ok sampleObj, .error (.other "boom")⟩)
        staleObj).1.obj.resourceVersion = "5") := by
  refine ⟨?_, ?_, rfl, rfl, rfl⟩
  · exact onErrorAux_inv (fun s => offRV s.obj obj) KErr.isConflict
      (retryAttemptFn OpCall.update (nnKey obj) env)
      (fun t ht => retryAttemptFn_offRV OpCall.update (nnKey obj) env t obj ht)
      defaultRetrySteps { idx := 0, obj := obj, trace := [] } none ⟨rfl, rfl, rfl⟩
  · exact onErrorAux_inv (fun s => offRV s.obj obj) KErr.isConflict
      (retryAttemptFn OpCall.statusUpdate (nnKey obj) env)
      (fun t ht => retryAttemptFn_offRV OpCall.statusUpdate (nnKey obj) env t obj ht)
      defaultRetrySteps { idx := 0, obj := obj, trace := [] } none ⟨rfl, rfl, rfl⟩

theorem getInformers_ne_none (informerErr : Kind → Option KErr) :
    ∀ (l : List Kind) (k : Kind) (e : KErr), k ∈ l → informerErr k = some e →
      getInformers informerErr l ≠ none := by
  intro l
  induction l with
  | nil => intro k e hk _; exact absurd hk (List.not_mem_nil k)
  | cons h t ih =>
      intro k e hk he
      unfold getInformers
      cases hh : informerErr h with
      | some e' => simp
      | none =>
          rcases List.mem_cons.mp hk with rfl | hk'
          · rw [hh] at he; exact absurd he (by simp)
          · exact ih k e hk' he

/-- C8: client construction fails when establishing the eager informer of
any kind in `informerResources` fails: neither `BuildCustomClient` nor
`NewCustomClient` can return a client, whatever the outcomes of the other
construction steps — there is no partial-success mode. -/
theorem construction_fails_on_informer_failure (env : BuildEnv) (k : Kind)
    (e : KErr) (hk : k ∈ informerResources) (he : env.informerErr k = some e) :
    (∀ c, buildCustomClient env ≠ .ok c) ∧
    (∀ c, newCustomClient env ≠ .ok c) := by
  have hgi := getInformers_ne_none env.informerErr informerResources k e hk he
  have hb : ∀ c, buildCustomClient env ≠ .ok c := by
    intro c hc
    unfold buildCustomClient at hc
    cases h1 : env.newRequirementErr with
    | some e1 => rw [h1] at hc; exact absurd hc (by simp)
    | none =>
        rw [h1] at hc
        cases h2 : env.cacheNewErr with
        | some e2 => rw [h2] at hc; exact absurd hc (by simp)
        | none =>
            rw [h2] at hc
            cases h3 : getInformers env.informerErr informerResources with
            | some e3 => rw [h3] at hc; exact absurd hc (by simp)
            | none => exact hgi h3
  refine ⟨hb, ?_⟩
  intro c hc
  unfold newCustomClient at hc
  cases h : buildCustomClient env with
  | error e' => rw [h] at hc; exact absurd hc (by simp)
  | ok c' => exact hb c' h

/-- A construction environment whose every step succeeds except the eager
informer of the `SpireServer` kind, which is denied. -/
def badBuildEnv : BuildEnv :=
  { newRequirementErr := none, cacheNewErr := none,
    informerErr := fun k =>
      if k = .spireServer then some (.other "forbidden") else none,
    addErr := none, clientNewErr := none }

/-- Witness for C8: the denied `SpireServer` informer makes both
constructors fail to produce the client. -/
theorem construction_fails_on_informer_failure_witness :
    buildCustomClient badBuildEnv ≠ .ok customCacheObjects ∧
    newCustomClient badBuildEnv ≠ .ok customCacheObjects :=
  ⟨(construction_fails_on_informer_failure badBuildEnv .spireServer
      (.other "forbidden") (by decide) rfl).1 customCacheObjects,
   (construction_fails_on_informer_failure badBuildEnv .spireServer
      (.other "forbidden") (by decide) rfl).2 customCacheObjects⟩

/-- C9: every kind of the filtered list is configured in the cache with
the label filter `app-managed-by` equals the fixed controller-identity
value, every kind of the unfiltered list is configured with no label
filter, and the eager-informer list holds exactly the union of the two
cached-kind lists. -/
theorem cache_catalog_filters_and_informer_union :
    (∀ k ∈ cacheResources,
        customCacheObjects.lookup k = some (some managedResourceLabelReqSelector)) ∧
    managedResourceLabelReqSelector
      = { key := appManagedByLabelKey, values := [appManagedByLabelValue] } ∧
    (∀ k ∈ cacheResourceWithoutReqSelectors,
        customCacheObjects.lookup k = some none) ∧
    (∀ k ∈ informerResources,
        k ∈ cacheResources ∨ k ∈ cacheResourceWithoutReqSelectors) ∧
    (∀ k ∈ cacheResources, k ∈ informerResources) ∧
    (∀ k ∈ cacheResourceWithoutReqSelectors, k ∈ informerResources) := by
  refine ⟨by decide, rfl, by decide, by decide, by decide, by decide⟩

/-- Witness for C9 at concrete kinds: `Role` is cached under the
ownership-label filter and `SpireServer` is cached unfiltered. -/
theorem cache_catalog_filters_and_informer_union_witness :
    customCacheObjects.lookup Kind.role
      = some (some managedResourceLabelReqSelector) ∧
    customCacheObjects.lookup Kind.spireServer = some none :=
  ⟨cache_catalog_filters_and_informer_union.1 Kind.role (by decide),
   cache_catalog_filters_and_informer_union.2.2.1 Kind.spireServer (by decide)⟩

end SpireClient

namespace SpireClient

/-- C1: If the cache read reports NotFound, Get performs a second read via
the direct (bypass-cache) reader and returns its result verbatim (so when
the direct store has the object, Get returns exactly that object); any
cache-read error that is not NotFound-classified is returned immediately
with no direct-store fallback. -/
theorem get_notfound_falls_back_to_direct
    (cacheGet directGet : String → Except KErr Obj) (key : String) (e : KErr)
    (h : cacheGet key = .error e) :
    (e.isNotFound = true → customGet cacheGet directGet key = directGet key) ∧
    (e.isNotFound = false → customGet cacheGet directGet key = .error e) := by
  unfold customGet
  rw [h]
  constructor <;> intro he <;> simp [he]

/-- Witness for C1 at concrete readers: the cache reports NotFound, the
direct store has `sampleObj`, and Get returns `sampleObj`; a cache read
failing with a permission-style error is returned with no fallback. -/
theorem get_notfound_falls_back_to_direct_witness :
    customGet (fun _ => .error (.notFound "a")) (fun _ => .ok sampleObj) "ns/a"
      = .ok sampleObj ∧
    customGet (fun _ => .error (.other "forbidden")) (fun _ => .ok sampleObj) "ns/a"
      = .error (.other "forbidden") :=
  ⟨(get_notfound_falls_back_to_direct _ _ "ns/a" (KErr.notFound "a") rfl).1 rfl,
   (get_notfound_falls_back_to_direct _ _ "ns/a" (KErr.other "forbidden") rfl).2 rfl⟩

/-- C3: Exists performs a Get and classifies its outcome: `(false, none)`
when the key is absent (NotFound), `(false, some err)` for any other
error, `(true, none)` on success; the error it returns is never
NotFound-classified. -/
theorem exists_classifies_get_outcome
    (cacheGet : String → Except KErr Obj) (key : String) :
    (∀ e, cacheGet key = .error e → e.isNotFound = true →
        existsImpl cacheGet key = (false, none)) ∧
    (∀ e, cacheGet key = .error e → e.isNotFound = false →
        existsImpl cacheGet key = (false, some e)) ∧
    (∀ o, cacheGet key = .ok o → existsImpl cacheGet key = (true, none)) ∧
    (∀ e, (existsImpl cacheGet key).2 = some e → e.isNotFound = false) := by
  refine ⟨?_, ?_, ?_, ?_⟩
  · intro e h he; simp [existsImpl, h, he]
  · intro e h he; simp [existsImpl, h, he]
  · intro o h; simp [existsImpl, h]
  · intro e h
    unfold existsImpl at h
    cases hc : cacheGet key with
    | ok o => rw [hc] at h; simp at h
    | error e' =>
        rw [hc] at h
        by_cases hn : e'.isNotFound = true
        · simp [hn] at h
        · simp [Bool.not_eq_true] at hn
          simp [hn] at h
          simpa [h] using hn

/-- Witness for C3 at concrete readers: absent key gives `(false, none)`,
a permission-style error gives `(false, some err)`, present key gives
`(true, none)`. -/
theorem exists_classifies_get_outcome_witness :
    existsImpl (fun _ => .error (.notFound "a")) "ns/a" = (false, none) ∧
    existsImpl (fun _ => .error (.other "forbidden")) "ns/a"
      = (false, some (.other "forbidden")) ∧
    existsImpl (fun _ => .ok sampleObj) "ns/a" = (true, none) :=
  ⟨(exists_classifies_get_outcome _ "ns/a").1 (KErr.notFound "a") rfl rfl,
   (exists_classifies_get_outcome _ "ns/a").2.1 (KErr.other "forbidden") rfl rfl,
   (exists_classifies_get_outcome _ "ns/a").2.2.1 sampleObj rfl⟩

/-- C7: CreateOrUpdateObject attempts Create exactly once; on an
AlreadyExists-classified Create failure it performs exactly one Update
with the caller-supplied object as-is and returns the Update's result;
any other Create error is returned without attempting Update; Create is
never reattempted (every possible trace is `[create]` or
`[create, update]`). -/
theorem createOrUpdate_create_once_update_fallback
    (obj : Obj) (createRes updateRes : Except KErr Unit) :
    (createRes = .ok () →
        createOrUpdateObject obj createRes updateRes = (.ok (), [.create obj])) ∧
    (∀ e, createRes = .error e → e.isAlreadyExists = true →
        createOrUpdateObject obj createRes updateRes
          = (updateRes, [.create obj, .update obj])) ∧
    (∀ e, createRes = .error e → e.isAlreadyExists = false →
        createOrUpdateObject obj createRes updateRes = (.error e, [.create obj])) ∧
    ((createOrUpdateObject obj createRes updateRes).2 = [.create obj] ∨
     (createOrUpdateObject obj createRes updateRes).2 = [.create obj, .update obj]) := by
  refine ⟨?_, ?_, ?_, ?_⟩
  · intro h; simp [createOrUpdateObject, h]
  · intro e h he; simp [createOrUpdateObject, h, he]
  · intro e h he; simp [createOrUpdateObject, h, he]
  · unfold createOrUpdateObject
    cases createRes with
    | ok u => left; rfl
    | error e =>
        by_cases he : e.isAlreadyExists = true
        · right; simp [he]
        · left; simp [Bool.not_eq_true] at he; simp [he]

/-- Witness for C7 at concrete store outcomes: a fresh object is created
with a single Create; an already-existing object falls back to a single
Update with the caller's payload; a forbidden Create returns the error
and issues no Update. -/
theorem createOrUpdate_create_once_update_fallback_witness :
    createOrUpdateObject sampleObj (.ok ()) (.ok ())
      = (.ok (), [.create sampleObj]) ∧
    createOrUpdateObject sampleObj (.error (.alreadyExists "a")) (.ok ())
      = (.ok (), [.create sampleObj, .update sampleObj]) ∧
    createOrUpdateObject sampleObj (.error (.other "forbidden")) (.ok ())
      = (.error (.other "forbidden"), [.create sampleObj]) :=
  ⟨(createOrUpdate_create_once_update_fallback sampleObj (.ok ()) (.ok ())).1 rfl,
   (createOrUpdate_create_once_update_fallback sampleObj _ (.ok ())).2.1
     (KErr.alreadyExists "a") rfl rfl,
   (createOrUpdate_create_once_update_fallback sampleObj _ (.ok ())).2.2.1
     (KErr.other "forbidden") rfl rfl⟩

end SpireClient
